import Mathlib

/-!
Shallow embedding of `src/app.py` (Flask OAuth-PKCE client, session-bound
token broker, and authenticated proxy) and verification of its specification
claims.

Bytes are modelled as `Nat` (values `< 256`); 32-bit words as `Nat` reduced
with `% 2 ^ 32`.  Optional Python values (`None`) are `Option`; Python
truthiness of optional strings (`if not x:`) is `pyTruthy`.  The Flask
`session` dict is a record of the keys this app writes.  Outbound HTTP is an
oracle function passed explicitly; each operation also returns the list of
requests it issued, so that "no network call" and "exactly one retry" are
provable statements.
-/

/-- Truthiness of an optional Python string: `None` and the empty string are
falsy, every other string is truthy. -/
def pyTruthy : Option String → Bool
  | none => false
  | some s => !s.isEmpty

/-- Rendering of an optional Python string inside an f-string:
`None` prints as the four characters N o n e. -/
def pyStr : Option String → String
  | none => "None"
  | some s => s

/-! ### base64url (Python `base64.urlsafe_b64encode` + `.rstrip('=')`) -/

/-- The URL-safe base64 alphabet: index 0-25 to A-Z, 26-51 to a-z,
52-61 to 0-9, 62 to the minus sign, 63 to the underscore. -/
def b64Char (n : Nat) : Char :=
  if n < 26 then Char.ofNat (65 + n)
  else if n < 52 then Char.ofNat (97 + (n - 26))
  else if n < 62 then Char.ofNat (48 + (n - 52))
  else if n = 62 then '-'
  else '_'

/-- URL-safe base64 encoding with padding, as `base64.urlsafe_b64encode`
produces: groups of 3 bytes become 4 alphabet characters, a 1- or 2-byte
tail is padded with two or one padding characters. -/
def b64url : List Nat → List Char
  | [] => []
  | [b1] => [b64Char (b1 / 4), b64Char (b1 % 4 * 16), '=', '=']
  | [b1, b2] => [b64Char (b1 / 4), b64Char (b1 % 4 * 16 + b2 / 16),
                 b64Char (b2 % 16 * 4), '=']
  | b1 :: b2 :: b3 :: rest =>
      b64Char (b1 / 4) :: b64Char (b1 % 4 * 16 + b2 / 16) ::
      b64Char (b2 % 16 * 4 + b3 / 64) :: b64Char (b3 % 64) :: b64url rest

/-- Python `str.rstrip('=')`: drop trailing padding characters. -/
def rstripEq (cs : List Char) : List Char :=
  (cs.reverse.dropWhile (fun c => c == '=')).reverse

/-- Unpadded URL-safe base64, exactly
`base64.urlsafe_b64encode(bs).decode('utf-8').rstrip('=')`. -/
def b64urlNoPad (bs : List Nat) : String :=
  String.mk (rstripEq (b64url bs))

/-! ### SHA-256 (Python `hashlib.sha256(...).digest()`) -/

/-- Reduce to a 32-bit word. -/
def w32 (n : Nat) : Nat := n % 4294967296

/-- Rotate a 32-bit word right by `n` bits. -/
def rotr (x n : Nat) : Nat := w32 ((x >>> n) ||| (x <<< (32 - n)))

/-- Big-endian byte expansion: `beBytes k v` is the `k`-byte big-endian
representation of `v % 256 ^ k`. -/
def beBytes : Nat → Nat → List Nat
  | 0, _ => []
  | k + 1, v => beBytes k (v / 256) ++ [v % 256]

/-- SHA-256 message padding: append the 0x80 byte, zero bytes up to 56 mod
64, then the 8-byte big-endian bit length. -/
def sha256Pad (ms : List Nat) : List Nat :=
  let L := ms.length
  let k := (119 - L % 64) % 64
  ms ++ [128] ++ List.replicate k 0 ++ beBytes 8 (L * 8)

/-- Group bytes into big-endian 32-bit words. -/
def bytesToWords : List Nat → List Nat
  | b1 :: b2 :: b3 :: b4 :: rest =>
      (((b1 * 256 + b2) * 256 + b3) * 256 + b4) :: bytesToWords rest
  | _ => []

/-- SHA-256 small sigma 0. -/
def shaS0 (x : Nat) : Nat := rotr x 7 ^^^ rotr x 18 ^^^ (x >>> 3)

/-- SHA-256 small sigma 1. -/
def shaS1 (x : Nat) : Nat := rotr x 17 ^^^ rotr x 19 ^^^ (x >>> 10)

/-- SHA-256 big sigma 0. -/
def shaB0 (x : Nat) : Nat := rotr x 2 ^^^ rotr x 13 ^^^ rotr x 22

/-- SHA-256 big sigma 1. -/
def shaB1 (x : Nat) : Nat := rotr x 6 ^^^ rotr x 11 ^^^ rotr x 25

/-- The 64 SHA-256 round constants, written in decimal. -/
def shaK : List Nat :=
  [1116352408, 1899447441, 3049323471, 3921009573, 961987163, 1508970993,
   2453635748, 2870763221, 3624381080, 310598401, 607225278, 1426881987,
   1925078388, 2162078206, 2614888103, 3248222580, 3835390401, 4022224774,
   264347078, 604807628, 770255983, 1249150122, 1555081692, 1996064986,
   2554220882, 2821834349, 2952996808, 3210313671, 3336571891, 3584528711,
   113926993, 338241895, 666307205, 773529912, 1294757372, 1396182291,
   1695183700, 1986661051, 2177026350, 2456956037, 2730485921, 2820302411,
   3259730800, 3345764771, 3516065817, 3600352804, 4094571909, 275423344,
   430227734, 506948616, 659060556, 883997877, 958139571, 1322822218,
   1537002063, 1747873779, 1955562222, 2024104815, 2227730452, 2361852424,
   2428436474, 2756734187, 3204031479, 3329325298]

/-- SHA-256 initial hash state, written in decimal. -/
def shaH0 : List Nat :=
  [1779033703, 3144134277, 1013904242, 2773480762,
   1359893119, 2600822924, 528734635, 1541459225]

/-- One step of the message-schedule extension: append word
`w(i) = w(i-16) + s0(w(i-15)) + w(i-7) + s1(w(i-2)) mod 2^32`. -/
def schedStep (ws : List Nat) : List Nat :=
  let i := ws.length
  ws ++ [w32 (ws.getD (i - 16) 0 + shaS0 (ws.getD (i - 15) 0) +
              ws.getD (i - 7) 0 + shaS1 (ws.getD (i - 2) 0))]

/-- Extend 16 message words to the full 64-word schedule. -/
def schedule (ws : List Nat) : List Nat :=
  (List.range 48).foldl (fun acc _ => schedStep acc) ws

/-- One SHA-256 compression round on the 8-word working state. -/
def compressRound (st : List Nat) (kw : Nat × Nat) : List Nat :=
  match st with
  | [a, b, c, d, e, f, g, h] =>
      let ch := (e &&& f) ^^^ ((e ^^^ 4294967295) &&& g)
      let t1 := w32 (h + shaB1 e + ch + kw.1 + kw.2)
      let mj := (a &&& b) ^^^ (a &&& c) ^^^ (b &&& c)
      let t2 := w32 (shaB0 a + mj)
      [w32 (t1 + t2), a, b, c, w32 (d + t1), e, f, g]
  | other => other

/-- Process one 64-byte chunk into the running hash state. -/
def processChunk (h : List Nat) (chunk : List Nat) : List Nat :=
  let ws := schedule (bytesToWords chunk)
  let st := (shaK.zip ws).foldl compressRound h
  (h.zip st).map (fun p => w32 (p.1 + p.2))

/-- Split a byte list into 64-byte chunks. -/
def chunks64 (bs : List Nat) : List (List Nat) :=
  if h : bs = [] then []
  else bs.take 64 :: chunks64 (bs.drop 64)
termination_by bs.length
decreasing_by
  simp only [List.length_drop]
  have : 0 < bs.length := List.length_pos.mpr h
  omega

/-- SHA-256 digest of a byte sequence, as a list of 32 bytes. -/
def sha256 (ms : List Nat) : List Nat :=
  let final := (chunks64 (sha256Pad ms)).foldl processChunk shaH0
  final.foldr (fun w acc => beBytes 4 w ++ acc) []

/-- ASCII bytes of a string, as produced by `str.encode('utf-8')` on the
ASCII strings this app hashes. -/
def asciiBytes (s : String) : List Nat := s.data.map Char.toNat

/-! ### Configuration (module level, `src/app.py` lines 53-56)

`os.environ` is an oracle `String → Option String`; `os.environ.get`
with no default is the oracle itself, with a default it is `Option.getD`.
There is no validation: a missing mandatory variable simply yields `none`
and module import (startup) succeeds. -/

/-- The module-level configuration record read at import time. -/
structure Config where
  SALESFORCE_CLIENT_ID : Option String
  SALESFORCE_CLIENT_SECRET : Option String
  SALESFORCE_LOGIN_URL : String
  REDIRECT_URI : String
deriving DecidableEq

/-- Evaluation of `src/app.py` lines 53-56 against an environment.  Total:
no environment makes startup fail. -/
def loadConfig (env : String → Option String) : Config :=
  { SALESFORCE_CLIENT_ID := env "SALESFORCE_CLIENT_ID"
    SALESFORCE_CLIENT_SECRET := env "SALESFORCE_CLIENT_SECRET"
    SALESFORCE_LOGIN_URL := (env "SALESFORCE_LOGIN_URL").getD "https://login.salesforce.com"
    REDIRECT_URI := (env "APP_URL").getD "http://localhost:5000" ++ "/callback" }

/-! ### Flask session -/

/-- The Flask `session` dict, restricted to the keys `src/app.py` writes.
A key that is absent is `none`. -/
structure Session where
  code_verifier : Option String := none
  access_token : Option String := none
  instance_url : Option String := none
  refresh_token : Option String := none
  user_info : Option String := none
deriving DecidableEq

/-! ### `/login` (`src/app.py` lines 76-100) -/

/-- The PKCE verifier derived from the 32 entropy bytes of
`secrets.token_bytes(32)` (line 80). -/
def pkceVerifier (tokenBytes : List Nat) : String :=
  b64urlNoPad tokenBytes

/-- The PKCE challenge derived from a verifier (lines 81-83):
unpadded base64url of the SHA-256 digest of the verifier's bytes. -/
def pkceChallenge (verifier : String) : String :=
  b64urlNoPad (sha256 (asciiBytes verifier))

/-- Everything `/login` produces: the redirect target split into its base,
query parameters (values are optional strings, `None` rendering as `"None"`),
the joined query string, the full URL, and the updated session. -/
structure LoginResult where
  authUrl : String
  params : List (String × Option String)
  authQuery : String
  redirectUrl : String
  sessionAfter : Session
deriving DecidableEq

/-- One `f"{k}={v}"` element of the line-99 join. -/
def renderParam (p : String × Option String) : String :=
  p.1 ++ "=" ++ pyStr p.2

/-- The `/login` view (lines 76-100).  `tokenBytes` stands for the output of
`secrets.token_bytes(32)`. -/
def login (cfg : Config) (sess : Session) (tokenBytes : List Nat) : LoginResult :=
  let code_verifier := pkceVerifier tokenBytes
  let code_challenge := pkceChallenge code_verifier
  let sess1 := { sess with code_verifier := some code_verifier }
  let auth_url := "https://yg-agentforce-factory.my.salesforce.com/services/oauth2/authorize"
  let params : List (String × Option String) :=
    [("response_type", some "code"),
     ("client_id", cfg.SALESFORCE_CLIENT_ID),
     ("redirect_uri", some cfg.REDIRECT_URI),
     ("scope", some "api web refresh_token offline_access lightning wave_api"),
     ("code_challenge", some code_challenge),
     ("code_challenge_method", some "S256")]
  let auth_query := String.intercalate "&" (params.map renderParam)
  { authUrl := auth_url, params := params, authQuery := auth_query,
    redirectUrl := auth_url ++ "?" ++ auth_query, sessionAfter := sess1 }

/-! ### `/callback` (`src/app.py` lines 102-180) -/

/-- Query arguments of the callback request. -/
structure CallbackArgs where
  code : Option String
  error : Option String
  error_description : Option String
deriving DecidableEq

/-- The shape `response.json()` must have for the success path (lines
160-168) to run without a KeyError: `access_token`, `instance_url` and `id`
present, `refresh_token` read with `.get`. -/
structure TokenInfo where
  access_token : String
  instance_url : String
  refresh_token : Option String
  id : String
deriving DecidableEq

/-- A POST to the token endpoint: URL and form body.  A `none` value models
a Python `None` in the data dict. -/
structure PostReq where
  url : String
  data : List (String × Option String)
deriving DecidableEq

/-- A token-endpoint response: status, raw text, and the parse of the body
(`none` when `response.json()` would fail or lack a mandatory key). -/
structure HttpResp where
  status_code : Nat
  text : String
  jsonInfo : Option TokenInfo
deriving DecidableEq

/-- The identity GET of lines 166-169: URL and bearer token. -/
structure GetReq where
  url : String
  bearer : String
deriving DecidableEq

/-- An identity-endpoint response; the body is kept opaque. -/
structure GetResp where
  status_code : Nat
  jsonBody : String
deriving DecidableEq

/-- The distinct outcomes of the `/callback` view, one constructor per
return point of `src/app.py`:
`authorizationFailed` is line 111 (HTTP 400), `noCode` line 114 (400),
`missingVerifier` line 119 (400), `redirectDashboard` line 174 (302),
`tokenExchangeFailed` line 180 (400, carrying the final response's status
and text), and `unhandledError` models an exception escaping the view
(HTTP 500; e.g. a 200 response whose body cannot be parsed). -/
inductive CallbackResult where
  | authorizationFailed (error : String) (description : String)
  | noCode
  | missingVerifier
  | redirectDashboard
  | tokenExchangeFailed (status : Nat) (text : String)
  | unhandledError
deriving DecidableEq

/-- Result of a callback invocation: the HTTP-level result, the session as
persisted afterwards, and the outbound requests issued (token-endpoint
POSTs and identity GETs), in order. -/
structure CallbackOutcome where
  result : CallbackResult
  sessionAfter : Session
  tokenPosts : List PostReq
  identityGets : List GetReq
deriving DecidableEq

/-- The org-specific token endpoint (line 122). -/
def token_url : String :=
  "https://yg-agentforce-factory.my.salesforce.com/services/oauth2/token"

/-- The PKCE-only token request body (lines 125-131). -/
def pkceRequest (cfg : Config) (code code_verifier : String) : PostReq :=
  { url := token_url,
    data := [("grant_type", some "authorization_code"),
             ("client_id", cfg.SALESFORCE_CLIENT_ID),
             ("redirect_uri", some cfg.REDIRECT_URI),
             ("code", some code),
             ("code_verifier", some code_verifier)] }

/-- The secret-bearing fallback request body (lines 147-154). -/
def secretRequest (cfg : Config) (code code_verifier : String) : PostReq :=
  { url := token_url,
    data := [("grant_type", some "authorization_code"),
             ("client_id", cfg.SALESFORCE_CLIENT_ID),
             ("client_secret", cfg.SALESFORCE_CLIENT_SECRET),
             ("redirect_uri", some cfg.REDIRECT_URI),
             ("code", some code),
             ("code_verifier", some code_verifier)] }

/-- Lines 159-180: consume the final token-endpoint response.  On 200 the
body is parsed, the session token fields are written, and the identity GET
is issued (best-effort: only a 200 identity response writes `user_info`).
Note no branch ever clears `code_verifier`. -/
def finishExchange (sess : Session) (resp : HttpResp) (posts : List PostReq)
    (httpGet : GetReq → GetResp) : CallbackOutcome :=
  if resp.status_code = 200 then
    match resp.jsonInfo with
    | none =>
        { result := .unhandledError, sessionAfter := sess,
          tokenPosts := posts, identityGets := [] }
    | some ti =>
        let sess1 := { sess with access_token := some ti.access_token,
                                 instance_url := some ti.instance_url,
                                 refresh_token := ti.refresh_token }
        let greq : GetReq := { url := ti.id, bearer := ti.access_token }
        let gresp := httpGet greq
        let sess2 := if gresp.status_code = 200
                     then { sess1 with user_info := some gresp.jsonBody }
                     else sess1
        { result := .redirectDashboard, sessionAfter := sess2,
          tokenPosts := posts, identityGets := [greq] }
  else
    { result := .tokenExchangeFailed resp.status_code resp.text,
      sessionAfter := sess, tokenPosts := posts, identityGets := [] }

/-- The `/callback` view (lines 102-180).  `httpPost` and `httpGet` are the
network oracles standing for `requests.post` and `requests.get`. -/
def callback (cfg : Config) (sess : Session) (args : CallbackArgs)
    (httpPost : PostReq → HttpResp) (httpGet : GetReq → GetResp) : CallbackOutcome :=
  if pyTruthy args.error then
    { result := .authorizationFailed (pyStr args.error) ((args.error_description).getD ""),
      sessionAfter := sess, tokenPosts := [], identityGets := [] }
  else if !pyTruthy args.code then
    { result := .noCode, sessionAfter := sess, tokenPosts := [], identityGets := [] }
  else if !pyTruthy sess.code_verifier then
    { result := .missingVerifier, sessionAfter := sess, tokenPosts := [], identityGets := [] }
  else
    let code := (args.code).getD ""
    let code_verifier := (sess.code_verifier).getD ""
    let req1 := pkceRequest cfg code code_verifier
    let resp1 := httpPost req1
    if resp1.status_code ≠ 200 ∧ pyTruthy cfg.SALESFORCE_CLIENT_SECRET then
      let req2 := secretRequest cfg code code_verifier
      let resp2 := httpPost req2
      finishExchange sess resp2 [req1, req2] httpGet
    else
      finishExchange sess resp1 [req1] httpGet

/-! ### `/api/tableau-config` (`src/app.py` lines 188-208) -/

/-- The JSON object the view returns on line 208. -/
structure TableauConfig where
  instanceUrl : Option String
  orgUrl : String
  dashboardId : String
  accessToken : Option String
  authCredential : Option String
  sessionId : Option String
  apiVersion : String
deriving DecidableEq

/-- Outcome of the view: line 192's 401 error JSON, or the config JSON. -/
inductive TableauConfigResult where
  | notAuthenticated
  | ok (config : TableauConfig)
deriving DecidableEq

/-- The `/api/tableau-config` view (lines 188-208).  Reads the session
only; the two environment lookups carry the source's defaults. -/
def tableau_config (env : String → Option String) (sess : Session) :
    TableauConfigResult :=
  if sess.access_token.isNone then .notAuthenticated
  else
    .ok { instanceUrl := sess.instance_url,
          orgUrl := (env "SALESFORCE_ORG_URL").getD "https://yg-agentforce-factory.lightning.force.com",
          dashboardId := (env "TABLEAU_DASHBOARD_ID").getD "Performance_Overview_Full_Page",
          accessToken := sess.access_token,
          authCredential := sess.access_token,
          sessionId := sess.access_token,
          apiVersion := "58.0" }

/-! ### `/api/agentforce-proxy` (`src/app.py` lines 210-232) -/

/-- JSON values, for the proxied request and response bodies. -/
inductive PyJson where
  | null
  | bool (b : Bool)
  | num (n : Int)
  | str (s : String)
  | arr (xs : List PyJson)
  | obj (fields : List (String × PyJson))

/-- The downstream POST issued on lines 226-230.  The `timeout` field
records the `timeout` keyword argument of `requests.post`; the source
passes none, so it is always `none` (wait indefinitely). -/
structure OutPost where
  url : String
  authorization : String
  contentType : String
  body : Option PyJson
  timeout : Option Nat

/-- What the downstream call does: completes with a status and a body
(`none` body when the body is not JSON-decodable), times out, or fails to
connect. -/
inductive DownstreamOutcome where
  | completed (status_code : Nat) (jsonBody : Option PyJson)
  | timeout
  | connectionError

/-- Outcome of the proxy view, one constructor per exit path:
`notAuthenticated` is line 214 (401); `relay s b` is line 232
(`jsonify(response.json()), response.status_code`); `jsonDecodeError`
is `response.json()` raising on a non-JSON body (unhandled, HTTP 500);
`transportError` is `requests.post` raising on timeout or connection
failure (unhandled, HTTP 500); `keyError` is `session['instance_url']`
raising when the key is absent (unhandled, HTTP 500). -/
inductive ProxyResult where
  | notAuthenticated
  | relay (status_code : Nat) (body : PyJson)
  | jsonDecodeError
  | transportError
  | keyError

/-- The `/api/agentforce-proxy` view (lines 210-232).  `reqJson` is
`request.get_json()`; `downstream` is the `requests.post` oracle.  Returns
the result, the session afterwards (the view never writes it), and the
list of downstream calls issued. -/
def agentforce_proxy (env : String → Option String) (sess : Session)
    (reqJson : Option PyJson) (downstream : OutPost → DownstreamOutcome) :
    ProxyResult × Session × List OutPost :=
  match sess.access_token with
  | none => (.notAuthenticated, sess, [])
  | some tok =>
    match sess.instance_url with
    | none => (.keyError, sess, [])
    | some inst =>
      let agentforce_endpoint := (env "AGENTFORCE_ENDPOINT").getD "/services/data/v58.0/analytics/agent"
      let req : OutPost :=
        { url := inst ++ agentforce_endpoint,
          authorization := "Bearer " ++ tok,
          contentType := "application/json",
          body := reqJson,
          timeout := none }
      match downstream req with
      | .timeout => (.transportError, sess, [req])
      | .connectionError => (.transportError, sess, [req])
      | .completed _ none => (.jsonDecodeError, sess, [req])
      | .completed s (some j) => (.relay s j, sess, [req])

/-! ### Concrete fixtures used by witnesses and counterexamples -/

/-- A configuration with a client secret present. -/
def cfgS : Config :=
  { SALESFORCE_CLIENT_ID := some "cid", SALESFORCE_CLIENT_SECRET := some "sec",
    SALESFORCE_LOGIN_URL := "https://login.salesforce.com",
    REDIRECT_URI := "http://localhost:5000/callback" }

/-- The same configuration without a client secret. -/
def cfgNoSec : Config := { cfgS with SALESFORCE_CLIENT_SECRET := none }

/-- A session right after `/login`: a pending verifier and nothing else. -/
def sessV : Session := { code_verifier := some "v" }

/-- An authenticated session: access token and instance URL present. -/
def sessAuth : Session := { access_token := some "tok", instance_url := some "inst" }

/-- Callback arguments carrying a code and no error. -/
def argsOK : CallbackArgs := { code := some "c", error := none, error_description := none }

/-- A token endpoint that rejects every request with HTTP 400. -/
def postFail : PostReq → HttpResp :=
  fun _ => { status_code := 400, text := "denied", jsonInfo := none }

/-- The stubbed token payload with access token T, instance URL U, id I. -/
def tokenT : TokenInfo :=
  { access_token := "T", instance_url := "U", refresh_token := none, id := "I" }

/-- A token endpoint that accepts every request, returning `tokenT`. -/
def postOK : PostReq → HttpResp :=
  fun _ => { status_code := 200, text := "ok", jsonInfo := some tokenT }

/-- An identity endpoint that answers 200 with an opaque blob. -/
def getOK : GetReq → GetResp := fun _ => { status_code := 200, jsonBody := "blob" }

/-- The empty environment: every variable is unset. -/
def envN : String → Option String := fun _ => none

/-- A downstream server that completes with a body that is not JSON. -/
def dNonJson : OutPost → DownstreamOutcome := fun _ => .completed 200 none

/-- A downstream server answering HTTP 403 with JSON body having one field
named error with string value x. -/
def d403 : OutPost → DownstreamOutcome :=
  fun _ => .completed 403 (some (.obj [("error", .str "x")]))

/-- A downstream server that always times out. -/
def dTimeout : OutPost → DownstreamOutcome := fun _ => .timeout

/-- 32 zero bytes, a concrete stand-in for `secrets.token_bytes(32)`. -/
def r32 : List Nat := List.replicate 32 0

/-! ### Supporting lemmas -/

/-- Under truthy code, falsy error and a truthy stored verifier, `callback`
is the exchange: one PKCE POST, then at most one secret-bearing retry,
finished by `finishExchange`. -/
theorem callback_exchange_eq (cfg : Config) (sess : Session) (args : CallbackArgs)
    (httpPost : PostReq → HttpResp) (httpGet : GetReq → GetResp)
    (hcode : pyTruthy args.code = true) (herr : pyTruthy args.error = false)
    (hver : pyTruthy sess.code_verifier = true) :
    callback cfg sess args httpPost httpGet =
      if (httpPost (pkceRequest cfg ((args.code).getD "") ((sess.code_verifier).getD ""))).status_code ≠ 200
         ∧ pyTruthy cfg.SALESFORCE_CLIENT_SECRET then
        finishExchange sess
          (httpPost (secretRequest cfg ((args.code).getD "") ((sess.code_verifier).getD "")))
          [pkceRequest cfg ((args.code).getD "") ((sess.code_verifier).getD ""),
           secretRequest cfg ((args.code).getD "") ((sess.code_verifier).getD "")] httpGet
      else
        finishExchange sess
          (httpPost (pkceRequest cfg ((args.code).getD "") ((sess.code_verifier).getD "")))
          [pkceRequest cfg ((args.code).getD "") ((sess.code_verifier).getD "")] httpGet := by
  simp [callback, herr, hcode, hver]

/-- `finishExchange` reports exactly the POSTs it was handed. -/
theorem finishExchange_tokenPosts (sess : Session) (resp : HttpResp)
    (posts : List PostReq) (g : GetReq → GetResp) :
    (finishExchange sess resp posts g).tokenPosts = posts := by
  unfold finishExchange
  split
  · split <;> rfl
  · rfl

/-- A non-200 final response produces the line-180 failure page carrying
that response's status and text, and leaves the session untouched. -/
theorem finishExchange_fail (sess : Session) (resp : HttpResp)
    (posts : List PostReq) (g : GetReq → GetResp) (h : resp.status_code ≠ 200) :
    finishExchange sess resp posts g =
      { result := .tokenExchangeFailed resp.status_code resp.text,
        sessionAfter := sess, tokenPosts := posts, identityGets := [] } := by
  unfold finishExchange
  rw [if_neg h]

/-- No branch of `finishExchange` writes `code_verifier`. -/
theorem finishExchange_code_verifier (sess : Session) (resp : HttpResp)
    (posts : List PostReq) (g : GetReq → GetResp) :
    (finishExchange sess resp posts g).sessionAfter.code_verifier = sess.code_verifier := by
  unfold finishExchange
  split
  · split
    · rfl
    · dsimp only
      split <;> rfl
  · rfl

/-- `finishExchange` never yields the missing-verifier outcome. -/
theorem finishExchange_result_ne_missing (sess : Session) (resp : HttpResp)
    (posts : List PostReq) (g : GetReq → GetResp) :
    (finishExchange sess resp posts g).result ≠ .missingVerifier := by
  unfold finishExchange
  split
  · split <;> simp
  · simp

/-- A 200 final response with parsable body writes the token fields and
leaves `code_verifier` as it was. -/
theorem finishExchange_success (sess : Session) (resp : HttpResp)
    (posts : List PostReq) (g : GetReq → GetResp) (ti : TokenInfo)
    (h200 : resp.status_code = 200) (hj : resp.jsonInfo = some ti) :
    (finishExchange sess resp posts g).result = .redirectDashboard ∧
    (finishExchange sess resp posts g).sessionAfter.access_token = some ti.access_token ∧
    (finishExchange sess resp posts g).sessionAfter.instance_url = some ti.instance_url ∧
    (finishExchange sess resp posts g).sessionAfter.code_verifier = sess.code_verifier := by
  unfold finishExchange
  rw [if_pos h200, hj]
  refine ⟨rfl, ?_, ?_, ?_⟩ <;> dsimp only <;> split <;> rfl

/-- The base64url alphabet never produces the padding character. -/
theorem b64Char_ne_pad : ∀ n, n < 64 → (b64Char n == '=') = false := by
  decide

/-- Encoding a block-aligned prefix followed by a 2-byte tail: the tail
becomes three alphabet characters and one padding character. -/
theorem b64url_two_tail : ∀ (bs : List Nat), bs.length % 3 = 0 → ∀ b1 b2 : Nat,
    b64url (bs ++ [b1, b2]) =
      b64url bs ++ [b64Char (b1 / 4), b64Char (b1 % 4 * 16 + b2 / 16),
                    b64Char (b2 % 16 * 4), '=']
  | [], _, b1, b2 => rfl
  | [x], h, _, _ => by simp at h
  | [x, y], h, _, _ => by simp at h
  | x :: y :: z :: rest, h, b1, b2 => by
      have h3 : rest.length % 3 = 0 := by
        simp only [List.length_cons] at h
        omega
      simp [b64url, b64url_two_tail rest h3 b1 b2]

/-- Padded base64 length: four characters per started 3-byte block. -/
theorem b64url_length (bs : List Nat) : (b64url bs).length = 4 * ((bs.length + 2) / 3) := by
  match bs with
  | [] => rfl
  | [b1] => simp [b64url]
  | [b1, b2] => simp [b64url]
  | b1 :: b2 :: b3 :: rest =>
      simp only [b64url, List.length_cons, b64url_length rest]
      omega

/-- Stripping one trailing padding character guarded by a non-padding one. -/
theorem rstripEq_append_two (xs : List Char) (c : Char) (hc : (c == '=') = false) :
    rstripEq (xs ++ [c, '=']) = xs ++ [c] := by
  simp [rstripEq, List.dropWhile, hc]

/-- A 32-byte input encodes to exactly 43 unpadded base64url characters. -/
theorem b64urlNoPad_length32 (tb : List Nat) (hlen : tb.length = 32)
    (hb : ∀ b ∈ tb, b < 256) :
    (b64urlNoPad tb).length = 43 := by
  have hsplit : tb.take 30 ++ tb.drop 30 = tb := List.take_append_drop 30 tb
  have hdlen : (tb.drop 30).length = 2 := by rw [List.length_drop, hlen]
  rcases hd : tb.drop 30 with _ | ⟨b1, _ | ⟨b2, _ | ⟨b3, tl⟩⟩⟩ <;> rw [hd] at hdlen <;>
    simp at hdlen
  have hfront : (tb.take 30).length = 30 := by rw [List.length_take]; omega
  have h3 : (tb.take 30).length % 3 = 0 := by omega
  have hb2 : b2 < 256 := by
    apply hb
    have : b2 ∈ tb.drop 30 := by rw [hd]; simp
    exact List.drop_subset 30 tb this
  have hc3 : (b64Char (b2 % 16 * 4) == '=') = false := by
    apply b64Char_ne_pad
    omega
  rw [← hsplit]
  calc (b64urlNoPad (tb.take 30 ++ tb.drop 30)).length
      = (rstripEq (b64url (tb.take 30 ++ [b1, b2]))).length := by rw [hd]; rfl
    _ = (rstripEq ((b64url (tb.take 30) ++
          [b64Char (b1 / 4), b64Char (b1 % 4 * 16 + b2 / 16)]) ++
          [b64Char (b2 % 16 * 4), '='])).length := by
          rw [b64url_two_tail (tb.take 30) h3 b1 b2]
          simp
    _ = ((b64url (tb.take 30) ++
          [b64Char (b1 / 4), b64Char (b1 % 4 * 16 + b2 / 16)]) ++
          [b64Char (b2 % 16 * 4)]).length := by
          rw [rstripEq_append_two _ _ hc3]
    _ = 43 := by
          simp [List.length_append, b64url_length, hfront]


/-! ### Claims -/

/-- Claim C1: in every token exchange in `callback`, if the first PKCE-only
POST returns a non-success status and a truthy client secret is configured,
exactly one retry POST including the client secret is issued, and a second
failure yields the line-180 failure page carrying the second response's
status and body; with no client secret configured a PKCE-only rejection
yields the failure page immediately with no retry; the total number of
token-endpoint POSTs is one or two. -/
theorem C1_exchange_retry (cfg : Config) (sess : Session) (args : CallbackArgs)
    (httpPost : PostReq → HttpResp) (httpGet : GetReq → GetResp)
    (hcode : pyTruthy args.code = true) (herr : pyTruthy args.error = false)
    (hver : pyTruthy sess.code_verifier = true) :
    ((callback cfg sess args httpPost httpGet).tokenPosts.length = 1 ∨
     (callback cfg sess args httpPost httpGet).tokenPosts.length = 2) ∧
    ((httpPost (pkceRequest cfg ((args.code).getD "") ((sess.code_verifier).getD ""))).status_code ≠ 200 →
      (pyTruthy cfg.SALESFORCE_CLIENT_SECRET = true →
        (callback cfg sess args httpPost httpGet).tokenPosts =
          [pkceRequest cfg ((args.code).getD "") ((sess.code_verifier).getD ""),
           secretRequest cfg ((args.code).getD "") ((sess.code_verifier).getD "")] ∧
        ("client_secret", cfg.SALESFORCE_CLIENT_SECRET) ∈
          (secretRequest cfg ((args.code).getD "") ((sess.code_verifier).getD "")).data ∧
        ((httpPost (secretRequest cfg ((args.code).getD "") ((sess.code_verifier).getD ""))).status_code ≠ 200 →
          (callback cfg sess args httpPost httpGet).result =
            .tokenExchangeFailed
              (httpPost (secretRequest cfg ((args.code).getD "") ((sess.code_verifier).getD ""))).status_code
              (httpPost (secretRequest cfg ((args.code).getD "") ((sess.code_verifier).getD ""))).text)) ∧
      (pyTruthy cfg.SALESFORCE_CLIENT_SECRET = false →
        (callback cfg sess args httpPost httpGet).tokenPosts =
          [pkceRequest cfg ((args.code).getD "") ((sess.code_verifier).getD "")] ∧
        (callback cfg sess args httpPost httpGet).result =
          .tokenExchangeFailed
            (httpPost (pkceRequest cfg ((args.code).getD "") ((sess.code_verifier).getD ""))).status_code
            (httpPost (pkceRequest cfg ((args.code).getD "") ((sess.code_verifier).getD ""))).text)) := by
  rw [callback_exchange_eq cfg sess args httpPost httpGet hcode herr hver]
  by_cases h1 : (httpPost (pkceRequest cfg ((args.code).getD "") ((sess.code_verifier).getD ""))).status_code = 200
  · rw [if_neg (fun hc => hc.1 h1)]
    exact ⟨Or.inl (by simp [finishExchange_tokenPosts]), fun hne => absurd h1 hne⟩
  · by_cases h2 : pyTruthy cfg.SALESFORCE_CLIENT_SECRET = true
    · rw [if_pos ⟨h1, h2⟩]
      refine ⟨Or.inr (by simp [finishExchange_tokenPosts]), fun _ => ⟨fun _ => ?_, fun h2f => ?_⟩⟩
      · exact ⟨finishExchange_tokenPosts .., by simp [secretRequest],
          fun hr2 => by rw [finishExchange_fail _ _ _ _ hr2]⟩
      · rw [h2] at h2f
        exact Bool.noConfusion h2f
    · rw [if_neg (fun hc => h2 hc.2)]
      refine ⟨Or.inl (by simp [finishExchange_tokenPosts]), fun hne => ⟨fun ht => absurd ht h2, fun _ => ?_⟩⟩
      exact ⟨finishExchange_tokenPosts .., by rw [finishExchange_fail _ _ _ _ h1]⟩

/-- Witness for C1 at concrete inputs, with and without a secret. -/
theorem C1_exchange_retry_witness :
    pyTruthy argsOK.code = true ∧ pyTruthy argsOK.error = false ∧
    pyTruthy sessV.code_verifier = true ∧
    (callback cfgS sessV argsOK postFail getOK).tokenPosts =
      [pkceRequest cfgS "c" "v", secretRequest cfgS "c" "v"] ∧
    (callback cfgS sessV argsOK postFail getOK).result = .tokenExchangeFailed 400 "denied" ∧
    (callback cfgNoSec sessV argsOK postFail getOK).tokenPosts = [pkceRequest cfgNoSec "c" "v"] ∧
    (callback cfgNoSec sessV argsOK postFail getOK).result = .tokenExchangeFailed 400 "denied" := by
  have h := C1_exchange_retry cfgS sessV argsOK postFail getOK rfl rfl rfl
  have hn := C1_exchange_retry cfgNoSec sessV argsOK postFail getOK rfl rfl rfl
  exact ⟨rfl, rfl, rfl, ((h.2 (by decide)).1 rfl).1, ((h.2 (by decide)).1 rfl).2.2 (by decide),
    ((hn.2 (by decide)).2 rfl).1, ((hn.2 (by decide)).2 rfl).2⟩

/-- Counterexample to claim C2: after a successful callback the session
still holds the pending verifier, and a second callback against the same
session does not fail with the missing-verifier error but performs a
second token-endpoint POST. -/
theorem C2_counterexample :
    (callback cfgS sessV argsOK postOK getOK).result = .redirectDashboard ∧
    (callback cfgS sessV argsOK postOK getOK).sessionAfter.code_verifier = some "v" ∧
    (callback cfgS (callback cfgS sessV argsOK postOK getOK).sessionAfter argsOK postOK getOK).result
      ≠ .missingVerifier ∧
    (callback cfgS (callback cfgS sessV argsOK postOK getOK).sessionAfter argsOK postOK getOK).tokenPosts
      = [pkceRequest cfgS "c" "v"] := by
  decide

/-- Claim C2 (amended): the callback never discards the session's pending
verifier (success or failure alike), so a second callback against a session
whose verifier is still truthy performs another exchange rather than
failing with the missing-verifier error. -/
theorem C2_verifier_retained (cfg : Config) (sess : Session) (args : CallbackArgs)
    (httpPost : PostReq → HttpResp) (httpGet : GetReq → GetResp) :
    (callback cfg sess args httpPost httpGet).sessionAfter.code_verifier = sess.code_verifier ∧
    (pyTruthy args.code = true → pyTruthy args.error = false →
     pyTruthy sess.code_verifier = true →
      (callback cfg sess args httpPost httpGet).result ≠ .missingVerifier ∧
      (callback cfg sess args httpPost httpGet).tokenPosts ≠ []) := by
  constructor
  · by_cases he : pyTruthy args.error = true
    · simp [callback, he]
    · have he2 : pyTruthy args.error = false := by simpa using he
      by_cases hc : pyTruthy args.code = true
      · by_cases hv : pyTruthy sess.code_verifier = true
        · rw [callback_exchange_eq cfg sess args httpPost httpGet hc he2 hv]
          split <;> apply finishExchange_code_verifier
        · have hv2 : pyTruthy sess.code_verifier = false := by simpa using hv
          simp [callback, he2, hc, hv2]
      · have hc2 : pyTruthy args.code = false := by simpa using hc
        simp [callback, he2, hc2]
  · intro hcode herr hver
    rw [callback_exchange_eq cfg sess args httpPost httpGet hcode herr hver]
    constructor
    · split <;> apply finishExchange_result_ne_missing
    · split <;> simp [finishExchange_tokenPosts]

/-- Witness for the amended C2 at concrete inputs. -/
theorem C2_verifier_retained_witness :
    (callback cfgS sessV argsOK postOK getOK).sessionAfter.code_verifier = some "v" ∧
    (callback cfgS sessV argsOK postOK getOK).result ≠ .missingVerifier := by
  have h := C2_verifier_retained cfgS sessV argsOK postOK getOK
  exact ⟨h.1, (h.2 rfl rfl rfl).1⟩

/-- Counterexample to claim C3: a successful exchange with access token T,
instance URL U, id I populates the token fields but does not clear the
pending verifier. -/
theorem C3_counterexample :
    (callback cfgS sessV argsOK postOK getOK).result = .redirectDashboard ∧
    (callback cfgS sessV argsOK postOK getOK).sessionAfter.access_token = some "T" ∧
    (callback cfgS sessV argsOK postOK getOK).sessionAfter.instance_url = some "U" ∧
    (callback cfgS sessV argsOK postOK getOK).sessionAfter.code_verifier ≠ none := by
  decide

/-- Claim C3 (amended): against a stubbed token endpoint answering 200
with access token T, instance URL U, id I, the callback posts accessToken T
and instanceUrl U into the session, but the pending verifier is left
unchanged rather than cleared. -/
theorem C3_success_state (cfg : Config) (sess : Session) (args : CallbackArgs)
    (httpGet : GetReq → GetResp) (T U I : String) (rt : Option String)
    (httpPost : PostReq → HttpResp)
    (hstatus : ∀ r, (httpPost r).status_code = 200)
    (hjson : ∀ r, (httpPost r).jsonInfo =
      some { access_token := T, instance_url := U, refresh_token := rt, id := I })
    (hcode : pyTruthy args.code = true) (herr : pyTruthy args.error = false)
    (hver : pyTruthy sess.code_verifier = true) :
    (callback cfg sess args httpPost httpGet).result = .redirectDashboard ∧
    (callback cfg sess args httpPost httpGet).sessionAfter.access_token = some T ∧
    (callback cfg sess args httpPost httpGet).sessionAfter.instance_url = some U ∧
    (callback cfg sess args httpPost httpGet).sessionAfter.code_verifier = sess.code_verifier := by
  rw [callback_exchange_eq cfg sess args httpPost httpGet hcode herr hver]
  rw [if_neg (fun hc => hc.1 (hstatus _))]
  exact finishExchange_success sess _ _ httpGet _ (hstatus _) (hjson _)

/-- Witness for the amended C3 at concrete inputs. -/
theorem C3_success_state_witness :
    (callback cfgS sessV argsOK postOK getOK).result = .redirectDashboard ∧
    (callback cfgS sessV argsOK postOK getOK).sessionAfter.access_token = some "T" ∧
    (callback cfgS sessV argsOK postOK getOK).sessionAfter.instance_url = some "U" ∧
    (callback cfgS sessV argsOK postOK getOK).sessionAfter.code_verifier = some "v" :=
  C3_success_state cfgS sessV argsOK getOK "T" "U" "I" none postOK
    (fun _ => rfl) (fun _ => rfl) rfl rfl rfl

/-- Claim C4: a callback carrying a code on a session with no pending
verifier fails with the missing-verifier error, performs no token POST and
no identity GET, and leaves the session unchanged. -/
theorem C4_no_verifier_no_network (cfg : Config) (sess : Session) (args : CallbackArgs)
    (httpPost : PostReq → HttpResp) (httpGet : GetReq → GetResp)
    (hcode : pyTruthy args.code = true) (herr : pyTruthy args.error = false)
    (hver : sess.code_verifier = none) :
    callback cfg sess args httpPost httpGet =
      { result := .missingVerifier, sessionAfter := sess, tokenPosts := [], identityGets := [] } := by
  have hv : pyTruthy sess.code_verifier = false := by rw [hver]; rfl
  simp [callback, herr, hcode, hv]

/-- Witness for C4 at concrete inputs. -/
theorem C4_no_verifier_no_network_witness :
    callback cfgS {} argsOK postFail getOK =
      { result := .missingVerifier, sessionAfter := {}, tokenPosts := [], identityGets := [] } :=
  C4_no_verifier_no_network cfgS {} argsOK postFail getOK rfl rfl rfl

/-- Claim C5: the PKCE pair generated by `/login` stores the verifier in
the session and sends the challenge; the challenge is the unpadded
base64url encoding of the SHA-256 digest of the verifier's ASCII bytes;
the verifier is the unpadded base64url encoding of the 32 entropy bytes
(43 characters); challenge derivation is deterministic. -/
theorem C5_pkce_pair (cfg : Config) (sess : Session) (tb : List Nat)
    (hlen : tb.length = 32) (hbytes : ∀ b ∈ tb, b < 256) :
    (login cfg sess tb).sessionAfter.code_verifier = some (pkceVerifier tb) ∧
    (login cfg sess tb).params.lookup "code_challenge" =
      some (some (pkceChallenge (pkceVerifier tb))) ∧
    pkceChallenge (pkceVerifier tb) = b64urlNoPad (sha256 (asciiBytes (pkceVerifier tb))) ∧
    pkceVerifier tb = b64urlNoPad tb ∧
    (pkceVerifier tb).length = 43 ∧
    (∀ v1 v2 : String, v1 = v2 → pkceChallenge v1 = pkceChallenge v2) := by
  refine ⟨rfl, rfl, rfl, rfl, ?_, fun v1 v2 h => h ▸ rfl⟩
  show (b64urlNoPad tb).length = 43
  rw [show (b64urlNoPad tb).length = (rstripEq (b64url tb)).length from rfl]
  have := b64urlNoPad_length32 tb hlen hbytes
  exact this

/-- Witness for C5 at 32 concrete zero bytes. -/
theorem C5_pkce_pair_witness :
    r32.length = 32 ∧
    (login cfgS {} r32).sessionAfter.code_verifier = some (pkceVerifier r32) ∧
    pkceVerifier r32 = b64urlNoPad r32 ∧
    (pkceVerifier r32).length = 43 := by
  have h := C5_pkce_pair cfgS {} r32 (by decide) (by decide)
  exact ⟨by decide, h.1, h.2.2.2.1, h.2.2.2.2.1⟩

/-- Claim C6: for a session holding an access token, the tableau-config
operation returns a JSON body that contains that bearer token verbatim in
the accessToken, authCredential and sessionId fields. -/
theorem C6_token_disclosed (env : String → Option String) (sess : Session) (t : String)
    (h : sess.access_token = some t) :
    tableau_config env sess =
      .ok { instanceUrl := sess.instance_url,
            orgUrl := (env "SALESFORCE_ORG_URL").getD "https://yg-agentforce-factory.lightning.force.com",
            dashboardId := (env "TABLEAU_DASHBOARD_ID").getD "Performance_Overview_Full_Page",
            accessToken := some t, authCredential := some t, sessionId := some t,
            apiVersion := "58.0" } := by
  simp [tableau_config, h]

/-- Witness for C6 at concrete inputs. -/
theorem C6_token_disclosed_witness :
    tableau_config envN sessAuth =
      .ok { instanceUrl := some "inst",
            orgUrl := "https://yg-agentforce-factory.lightning.force.com",
            dashboardId := "Performance_Overview_Full_Page",
            accessToken := some "tok", authCredential := some "tok",
            sessionId := some "tok", apiVersion := "58.0" } :=
  C6_token_disclosed envN sessAuth "tok" rfl

/-- Counterexample to claim C7: a downstream response whose body is not
JSON is not relayed; `response.json()` raises and the proxy ends in an
unhandled decode error instead of relaying the status and opaque body. -/
theorem C7_counterexample :
    (agentforce_proxy envN sessAuth none dNonJson).1 = .jsonDecodeError ∧
    (agentforce_proxy envN sessAuth none dNonJson).1 ≠ .relay 200 (.str "hello") :=
  ⟨rfl, fun h => nomatch h⟩

/-- Claim C7 (amended): a downstream response with status S and a
JSON-decodable body B is relayed to the caller as exactly status S and
value B; non-JSON bodies instead raise an unhandled decode error. -/
theorem C7_json_relay (env : String → Option String) (sess : Session) (tok inst : String)
    (reqJson : Option PyJson) (downstream : OutPost → DownstreamOutcome)
    (S : Nat) (B : PyJson)
    (htok : sess.access_token = some tok) (hinst : sess.instance_url = some inst)
    (hd : ∀ r, downstream r = .completed S (some B)) :
    (agentforce_proxy env sess reqJson downstream).1 = .relay S B := by
  simp [agentforce_proxy, htok, hinst, hd]

/-- Witness for the amended C7: a 403 JSON error body is relayed intact. -/
theorem C7_json_relay_witness :
    (agentforce_proxy envN sessAuth none d403).1 = .relay 403 (.obj [("error", .str "x")]) :=
  C7_json_relay envN sessAuth "tok" "inst" none d403 403 (.obj [("error", .str "x")])
    rfl rfl (fun _ => rfl)

/-- Counterexample to claim C8: the downstream call is issued with no
timeout at all, and a timing-out downstream produces an unhandled
transport exception, not a service-unavailable response. -/
theorem C8_counterexample :
    (agentforce_proxy envN sessAuth none dTimeout).2.2.map OutPost.timeout = [none] ∧
    (agentforce_proxy envN sessAuth none dTimeout).1 = .transportError ∧
    (agentforce_proxy envN sessAuth none dTimeout).1 ≠ .relay 503 .null :=
  ⟨rfl, rfl, fun h => nomatch h⟩

/-- Claim C8 (amended): every downstream call the proxy issues carries no
timeout (`requests.post` is called without one), and on timeout or
connection failure the transport exception propagates unhandled instead of
a service-unavailable response. -/
theorem C8_no_timeout_unhandled (env : String → Option String) (sess : Session)
    (tok inst : String) (reqJson : Option PyJson)
    (downstream : OutPost → DownstreamOutcome)
    (htok : sess.access_token = some tok) (hinst : sess.instance_url = some inst) :
    (∀ r ∈ (agentforce_proxy env sess reqJson downstream).2.2, r.timeout = none) ∧
    ((∀ r, downstream r = .timeout) →
      (agentforce_proxy env sess reqJson downstream).1 = .transportError) ∧
    ((∀ r, downstream r = .connectionError) →
      (agentforce_proxy env sess reqJson downstream).1 = .transportError) := by
  refine ⟨?_, fun hd => ?_, fun hd => ?_⟩
  · simp only [agentforce_proxy, htok, hinst]
    split <;> simp
  · simp [agentforce_proxy, htok, hinst, hd]
  · simp [agentforce_proxy, htok, hinst, hd]

/-- Witness for the amended C8 at concrete inputs. -/
theorem C8_no_timeout_unhandled_witness :
    (∀ r ∈ (agentforce_proxy envN sessAuth none dTimeout).2.2, r.timeout = none) ∧
    (agentforce_proxy envN sessAuth none dTimeout).1 = .transportError := by
  have h := C8_no_timeout_unhandled envN sessAuth "tok" "inst" none dTimeout rfl rfl
  exact ⟨h.1, h.2.1 (fun _ => rfl)⟩

/-- Claim C9: invoking the proxy on a session with no access token
returns the 401 not-authenticated response, issues no downstream call, and
leaves the session unchanged. -/
theorem C9_unauthenticated_no_call (env : String → Option String) (sess : Session)
    (reqJson : Option PyJson) (downstream : OutPost → DownstreamOutcome)
    (h : sess.access_token = none) :
    agentforce_proxy env sess reqJson downstream = (.notAuthenticated, sess, []) := by
  simp [agentforce_proxy, h]

/-- Witness for C9 at concrete inputs. -/
theorem C9_unauthenticated_no_call_witness :
    agentforce_proxy envN {} none (fun _ => .timeout) = (.notAuthenticated, {}, []) :=
  C9_unauthenticated_no_call envN {} none (fun _ => .timeout) rfl

/-- Counterexample to claim C10: with every environment variable unset,
startup succeeds and yields a configuration whose client id is None, and
the per-request `/login` operation still executes, placing value None
under the client-id query parameter, rendered as the text client_id=None. -/
theorem C10_counterexample :
    loadConfig envN =
      { SALESFORCE_CLIENT_ID := none, SALESFORCE_CLIENT_SECRET := none,
        SALESFORCE_LOGIN_URL := "https://login.salesforce.com",
        REDIRECT_URI := "http://localhost:5000/callback" } ∧
    (login (loadConfig envN) {} r32).params.lookup "client_id" = some none ∧
    renderParam ("client_id", none) = "client_id=None" :=
  ⟨rfl, rfl, rfl⟩

/-- Claim C10 (amended): a missing mandatory configuration value does not
prevent startup; the configuration loads with None and per-request
operations run against it, embedding None in the authorization URL. -/
theorem C10_startup_no_check (env : String → Option String) (sess : Session) (tb : List Nat)
    (h : env "SALESFORCE_CLIENT_ID" = none) :
    (loadConfig env).SALESFORCE_CLIENT_ID = none ∧
    (login (loadConfig env) sess tb).params.lookup "client_id" = some none ∧
    renderParam ("client_id", none) = "client_id=None" := by
  have hlook : (login (loadConfig env) sess tb).params.lookup "client_id" =
      some (env "SALESFORCE_CLIENT_ID") := rfl
  exact ⟨by simp [loadConfig, h], by rw [hlook, h], rfl⟩

/-- Witness for the amended C10 in the empty environment. -/
theorem C10_startup_no_check_witness :
    (loadConfig envN).SALESFORCE_CLIENT_ID = none ∧
    (login (loadConfig envN) {} r32).params.lookup "client_id" = some none ∧
    renderParam ("client_id", none) = "client_id=None" :=
  C10_startup_no_check envN {} r32 rfl
